import Mathlib

/-!
Verification of the error-translation and middleware-pipeline logic of an
Express/Prisma HTTP API, via a shallow embedding of the TypeScript source
(src/src/Utils/errorHandler/errorHandler.ts and
src/config/apiConfigMiddleware.config.ts) into Lean.
-/

namespace Spec2Proof

/-- JavaScript values as they occur in thrown error objects and in the JSON
bodies of error responses: strings, numbers, booleans, null, undefined,
arrays and plain objects (an object is a list of key-value pairs; property
access sees the first occurrence of a key). -/
inductive JsVal where
  | str (s : String)
  | num (n : Int)
  | bool (b : Bool)
  | null
  | undefined
  | arr (xs : List JsVal)
  | obj (fields : List (String × JsVal))

/-- Truthiness of a JavaScript value, as used by conditions such as
`error.meta?.target || 'inconnu'`. -/
def jsTruthy : JsVal → Bool
  | .str s => !s.isEmpty
  | .num n => !(n == 0)
  | .bool b => b
  | .null => false
  | .undefined => false
  | .arr _ => true
  | .obj _ => true

mutual

/-- String conversion of a JavaScript value, as performed by template-literal
interpolation. Arrays join their elements with commas, rendering null and
undefined elements as the empty string; objects render as [object Object]. -/
def jsToString : JsVal → String
  | .str s => s
  | .num n => toString n
  | .bool b => cond b "true" "false"
  | .null => "null"
  | .undefined => "undefined"
  | .arr xs => String.intercalate "," (jsToStringArr xs)
  | .obj _ => "[object Object]"

/-- Element-wise string conversion for array interpolation. -/
def jsToStringArr : List JsVal → List String
  | [] => []
  | .null :: xs => "" :: jsToStringArr xs
  | .undefined :: xs => "" :: jsToStringArr xs
  | x :: xs => jsToString x :: jsToStringArr xs

end

/-- Escapes backslashes and double quotes for JSON string rendering. -/
def jsEscape (s : String) : String :=
  (s.replace "\\" "\\\\").replace "\"" "\\\""

mutual

/-- Rendering of a JavaScript value by JSON.stringify, as used for the log
line of the validation branch (an undefined argument makes JSON.stringify
return undefined, which the template literal then renders as the text
undefined). -/
def jsonStringify : JsVal → String
  | .str s => "\"" ++ jsEscape s ++ "\""
  | .num n => toString n
  | .bool b => cond b "true" "false"
  | .null => "null"
  | .undefined => "undefined"
  | .arr xs => "[" ++ String.intercalate "," (jsonStringifyArr xs) ++ "]"
  | .obj fields => "\x7b" ++ String.intercalate "," (jsonStringifyFields fields) ++ "\x7d"

/-- JSON rendering of array elements (undefined elements render as null). -/
def jsonStringifyArr : List JsVal → List String
  | [] => []
  | .undefined :: xs => "null" :: jsonStringifyArr xs
  | x :: xs => jsonStringify x :: jsonStringifyArr xs

/-- JSON rendering of object fields (fields holding undefined are omitted). -/
def jsonStringifyFields : List (String × JsVal) → List String
  | [] => []
  | (_, .undefined) :: fs => jsonStringifyFields fs
  | (k, v) :: fs => ("\"" ++ jsEscape k ++ "\":" ++ jsonStringify v) :: jsonStringifyFields fs

end

/-! ## Error values

The error argument of handleError is an arbitrary JavaScript value: an
instance of Prisma.PrismaClientKnownRequestError, some other native Error
instance (possibly with extra properties assigned to it), or any plain
value (string, number, null, object, ...). -/

/-- A Prisma known request error, as consumed by getPrismaErrorMessage:
its code string and the optional meta.target metadata (absent when either
meta or meta.target is undefined), plus the inherited Error message. -/
structure PrismaClientKnownRequestError where
  code : String
  metaTarget : Option JsVal
  message : String

/-- An arbitrary JavaScript value reaching handleError: a Prisma known
request error, some other native Error instance carrying its message and
any extra own properties assigned to it (properties other than message),
or a plain JavaScript value. -/
inductive ErrValue where
  | prismaKnown (e : PrismaClientKnownRequestError)
  | nativeError (message : String) (props : List (String × JsVal))
  | jsVal (v : JsVal)

/-- The test `error instanceof Prisma.PrismaClientKnownRequestError`. -/
def isPrismaKnown : ErrValue → Bool
  | .prismaKnown _ => true
  | _ => false

/-- The test `typeof error === 'object'` (true for objects, arrays and
null; false for strings, numbers, booleans and undefined; Error instances
are objects). -/
def typeofIsObject : ErrValue → Bool
  | .prismaKnown _ => true
  | .nativeError _ _ => true
  | .jsVal (.obj _) => true
  | .jsVal (.arr _) => true
  | .jsVal .null => true
  | .jsVal _ => false

/-- The test `error !== null`, negated: true exactly for the null value. -/
def isNullVal : ErrValue → Bool
  | .jsVal .null => true
  | _ => false

/-- The test `'status' in error`: the value has a property named status
(a Prisma known request error exposes code, meta and message but no status
property; an array has no status property). -/
def hasStatusProp : ErrValue → Bool
  | .prismaKnown _ => false
  | .nativeError _ props => (props.lookup "status").isSome
  | .jsVal (.obj fields) => (fields.lookup "status").isSome
  | .jsVal _ => false

/-- The test `error instanceof Error` (Prisma known request errors extend
Error; thrown plain values do not). -/
def instanceofError : ErrValue → Bool
  | .prismaKnown _ => true
  | .nativeError _ _ => true
  | .jsVal _ => false

/-- Property access `error[k]` on an error value, yielding undefined for a
missing property. On a native Error, message is the inherited message and
the extra assigned properties provide the rest. -/
def getProp (e : ErrValue) (k : String) : JsVal :=
  match e with
  | .prismaKnown p => if k = "message" then .str p.message else .undefined
  | .nativeError msg props =>
      if k = "message" then .str msg
      else ((props.lookup k).getD .undefined)
  | .jsVal (.obj fields) => ((fields.lookup k).getD .undefined)
  | .jsVal _ => .undefined

/-! ## The error translator (src/src/Utils/errorHandler/errorHandler.ts) -/

/-- Embeds getPrismaErrorMessage: converts a Prisma known request error
into a status code and message, by error code. The P2002 field name comes
from `error.meta?.target || 'inconnu'` (the fallback also fires on a falsy
target such as the empty string) and is interpolated into the message. -/
def getPrismaErrorMessage (error : PrismaClientKnownRequestError) : Int × String :=
  match error.code with
  | "P2002" =>
      let field : JsVal :=
        match error.metaTarget with
        | some t => if jsTruthy t then t else .str "inconnu"
        | none => .str "inconnu"
      (400, "Erreur : le champ " ++ jsToString field ++
        " doit être unique. La valeur fournie est déjà utilisée.")
  | "P2003" =>
      (400, "Erreur : violation de contrainte de clé étrangère. Veuillez vérifier les références.")
  | "P2025" =>
      (404, "Erreur : Une opération a échoué car elle dépend d\x27un ou plusieurs enregistrements requis mais introuvables.")
  | _ =>
      (500, "Erreur serveur : une erreur Prisma inconnue s\x27est produite.")

/-- Embeds formatValidationErrors: rebuilds `{ status: error.status,
error: error.error }` from the error value, passing both properties
through unchanged. -/
def formatValidationErrors (error : ErrValue) : JsVal × JsVal :=
  (getProp error "status", getProp error "error")

/-- Embeds throwError (the Lean token throwError is reserved, hence the
longer name): the thrown value is the plain object
`{ status, error: { message } }`. -/
def throwErrorValue (status : Int) (message : String) : ErrValue :=
  .jsVal (.obj [("status", .num status), ("error", .obj [("message", .str message)])])

/-- The request context handleError receives (method and originalUrl feed
the log line). -/
structure Req where
  method : String
  originalUrl : String

/-- Observable actions of handleError: a structured log write (type label,
method, path, message, optional extra diagnostic) or a response write
carrying the status and error of the JSON body `{ status, error }`. -/
inductive Event where
  | logE (type : String) (method : String) (path : String)
      (message : String) (errorMessage : Option String)
  | respond (status : JsVal) (error : JsVal)

/-- Embeds logError: one structured log write with the given type label,
the request method and URL, the message and the optional diagnostic. -/
def logError (type : String) (req : Req) (message : String)
    (errorMessage : Option String) : Event :=
  .logE type req.method req.originalUrl message errorMessage

/-- Embeds sendErrorResponse: one response write whose JSON body is
`{ status, error }` with HTTP status equal to the status field. -/
def sendErrorResponse (status : JsVal) (error : JsVal) : Event :=
  .respond status error

/-- Embeds handleError as the ordered list of observable actions it
performs. The branch structure mirrors the source: first
`error instanceof Prisma.PrismaClientKnownRequestError`, then
`typeof error === 'object' && error !== null && 'status' in error`, then
`error instanceof Error`, else the unknown-error fallback. -/
def handleError (error : ErrValue) (req : Req) (errorMessage : Option String) :
    List Event :=
  match error with
  | .prismaKnown e =>
      let errorPrisma := getPrismaErrorMessage e
      [logError "Erreur Prisma" req errorPrisma.2 errorMessage,
       sendErrorResponse (.num errorPrisma.1) (.str errorPrisma.2)]
  | _ =>
      if typeofIsObject error && !isNullVal error && hasStatusProp error then
        let validationError := formatValidationErrors error
        [logError "Erreur de validation" req (jsonStringify validationError.2) errorMessage,
         sendErrorResponse validationError.1 validationError.2]
      else if instanceofError error then
        [logError "Erreur serveur" req (jsToString (getProp error "message")) errorMessage,
         sendErrorResponse (.num 500) (getProp error "message")]
      else
        [logError "Erreur inconnue" req "Erreur serveur inconnue" errorMessage,
         sendErrorResponse (.num 500) (.str "Erreur serveur inconnue")]

/-- The four classification branches of handleError. -/
inductive ErrClass where
  | prismaE
  | validation
  | serverE
  | unknownE
deriving DecidableEq, Repr

/-- Which of the four handleError branches an error value selects,
following the branch conditions of the source in order. -/
def classifyError (error : ErrValue) : ErrClass :=
  if isPrismaKnown error then .prismaE
  else if typeofIsObject error && !isNullVal error && hasStatusProp error then .validation
  else if instanceofError error then .serverE
  else .unknownE

/-- The log type label each branch passes to logError. -/
def classLabel : ErrClass → String
  | .prismaE => "Erreur Prisma"
  | .validation => "Erreur de validation"
  | .serverE => "Erreur serveur"
  | .unknownE => "Erreur inconnue"

/-- The response writes among a list of events, as (status, error) pairs. -/
def responsesOf (events : List Event) : List (JsVal × JsVal) :=
  events.filterMap fun e =>
    match e with
    | .respond s er => some (s, er)
    | _ => none

/-- The first response write among a list of events, if any. -/
def responseOf (events : List Event) : Option (JsVal × JsVal) :=
  (responsesOf events).head?

/-! ## The middleware pipeline (src/config/apiConfigMiddleware.config.ts)

The compression filter is embedded from the source. The bodies of the
rate limiter, sanitizer and log middlewares are not under src/ (only their
registration is), so those stages are modelled from the spec, as is the
Express dispatch loop that threads a request through the registered
stages. -/

/-- An inbound request as the pipeline stages see it: the parse result of
its body (none models a malformed JSON body), its headers, path, socket
address, optional forwarding header, and the number of requests already
counted in the current rate-limit window for its client identity. -/
structure PipeRequest where
  rawBody : Option JsVal
  headers : List (String × String)
  path : String
  socketAddr : String
  forwardedFor : Option String
  priorCount : Nat

/-- Truthiness of an optional header value: absent or empty is falsy, as
in `if (req.headers['x-no-compression'])`. -/
def headerTruthy : Option String → Bool
  | some v => !v.isEmpty
  | none => false

/-- The extensions of the regex `\.(jpg|jpeg|png|gif|pdf|svg|mp4)$` of the
compression filter. -/
def compressedExtensions : List String :=
  ["jpg", "jpeg", "png", "gif", "pdf", "svg", "mp4"]

/-- Lower-casing of a string, computed over its character list. -/
def strToLower (s : String) : String :=
  ⟨s.data.map Char.toLower⟩

/-- The suffix test of the anchored regex, computed over the character
lists of the strings. -/
def strEndsWith (s suffix : String) : Bool :=
  List.isPrefixOf suffix.data.reverse s.data.reverse

/-- The test `req.path.match(/\.(jpg|jpeg|png|gif|pdf|svg|mp4)$/i)`: the
path ends, case-insensitively, with a dot followed by one of the listed
extensions. -/
def pathMatchesCompressedExt (p : String) : Bool :=
  compressedExtensions.any fun e => strEndsWith (strToLower p) ("." ++ e)

/-- Embeds the compression filter of configureMiddleware: return false
(skip compression) when the x-no-compression header is truthy, otherwise
compress exactly when the path does not match the compressed-media
extension regex. -/
def compressionFilter (req : PipeRequest) : Bool :=
  if headerTruthy (req.headers.lookup "x-no-compression") then false
  else !(pathMatchesCompressedExt req.path)

/-- Mutable per-request pipeline state threaded through the stages. -/
structure PipeState where
  req : PipeRequest
  body : Option JsVal
  corsApplied : Bool
  securityHeadersApplied : Bool
  compressionEnabled : Bool
  clientIp : Option String
  sanitized : Bool
  logged : Bool

/-- The state in which a request enters the first stage. -/
def initState (r : PipeRequest) : PipeState :=
  { req := r, body := none, corsApplied := false, securityHeadersApplied := false,
    compressionEnabled := true, clientIp := none, sanitized := false, logged := false }

/-- Modelled from the spec: each pipeline stage either passes control
forward with an updated state, or terminates the request with a response;
no stage may resume a request after another stage has terminated it. -/
inductive StageResult where
  | next (s : PipeState)
  | terminated (status : Int) (error : String)

/-- Modelled from the spec: body parsing (express.json, external library)
rejects malformed bodies with a client error before any later stage
inspects them; a well-formed body is stored for the later stages. -/
def expressJsonStage (st : PipeState) : StageResult :=
  match st.req.rawBody with
  | some b => .next { st with body := some b }
  | none => .terminated 400 "Invalid JSON body"

/-- Modelled from the spec: the cross-origin policy check (cors(),
external library) marks the response and passes the request on. -/
def corsStage (st : PipeState) : StageResult :=
  .next { st with corsApplied := true }

/-- Modelled from the spec: security-header injection (helmet(), external
library) applies unconditionally and passes the request on. -/
def helmetStage (st : PipeState) : StageResult :=
  .next { st with securityHeadersApplied := true }

/-- The compression stage records the decision of the source-embedded
compressionFilter for response encoding and passes the request on
unchanged (the compression middleware itself is an external library). -/
def compressionStage (st : PipeState) : StageResult :=
  .next { st with compressionEnabled := compressionFilter st.req }

/-- Modelled from the spec: the trusted network classes loopback,
link-local and unique-local configured by `app.set('trust proxy', ...)`. -/
def isTrustedProxyAddr (a : String) : Bool :=
  a == "127.0.0.1" || a == "::1" || a.startsWith "169.254." ||
    a.startsWith "fe80:" || a.startsWith "fc" || a.startsWith "fd"

/-- Modelled from the spec: the client address is the forwarding-header
address only when the socket address belongs to a trusted network class;
an untrusted forwarding header does not override the socket address. -/
def resolveClientIp (r : PipeRequest) : String :=
  if isTrustedProxyAddr r.socketAddr then
    match r.forwardedFor with
    | some f => f
    | none => r.socketAddr
  else r.socketAddr

/-- The trusted-proxy resolution stage derives the client identity and
passes the request on. -/
def trustProxyStage (st : PipeState) : StageResult :=
  .next { st with clientIp := some (resolveClientIp st.req) }

/-- The 429 message of the rate limiter, modelled from the spec
(a message identifying the limiting policy). -/
def rateLimitMessage : String :=
  "Trop de requêtes, veuillez réessayer plus tard."

/-- Modelled from the spec: createRateLimiter (source not under src/)
builds a fixed-window limiter of the given window length in minutes and
request cap; a request whose identity already consumed the cap inside the
window is denied with status 429, otherwise it passes. -/
def createRateLimiter (_windowMinutes cap : Nat) : PipeState → StageResult :=
  fun st =>
    if st.req.priorCount < cap then .next st
    else .terminated 429 rateLimitMessage

/-- Modelled from the spec: sanitization strips markup characters from a
string field. -/
def sanitizeString (s : String) : String :=
  (s.replace "<" "").replace ">" ""

mutual

/-- Modelled from the spec: sanitization rewrites every string-valued
field of the payload recursively, preserving structure and non-string
fields. -/
def sanitizeValue : JsVal → JsVal
  | .str s => .str (sanitizeString s)
  | .arr xs => .arr (sanitizeValueArr xs)
  | .obj fs => .obj (sanitizeValueFields fs)
  | v => v

/-- Sanitization of array elements. -/
def sanitizeValueArr : List JsVal → List JsVal
  | [] => []
  | x :: xs => sanitizeValue x :: sanitizeValueArr xs

/-- Sanitization of object fields. -/
def sanitizeValueFields : List (String × JsVal) → List (String × JsVal)
  | [] => []
  | (k, v) :: fs => (k, sanitizeValue v) :: sanitizeValueFields fs

end

/-- Modelled from the spec: sanitizeRequestData (source not under src/)
rewrites the request payload in place and never terminates the request. -/
def sanitizeRequestData (st : PipeState) : StageResult :=
  .next { st with body := st.body.map sanitizeValue, sanitized := true }

/-- Modelled from the spec: the logging middleware (rotateLog and
requestLog, source not under src/) records the request and passes it on;
it never terminates the request. -/
def requestLogStage (st : PipeState) : StageResult :=
  .next { st with logged := true }

/-- Embeds configureMiddleware: the stages applied to every request, in
registration order — body parsing, cors, helmet, compression decision,
trusted-proxy resolution (configured between the compression and
rate-limiter registrations), the rate limiter built by
createRateLimiter(15, 100), sanitization, and request logging. -/
def middlewareStages : List (String × (PipeState → StageResult)) :=
  [("express.json", expressJsonStage),
   ("cors", corsStage),
   ("helmet", helmetStage),
   ("compression", compressionStage),
   ("trust proxy", trustProxyStage),
   ("rateLimiter", createRateLimiter 15 100),
   ("sanitizeRequestData", sanitizeRequestData),
   ("requestLog", requestLogStage)]

/-- The outcome of running a request through a stage list: the names of
the stages that executed, the terminating response if some stage
terminated the request (none means the request continues to the route
handler), and the final per-request state. -/
structure PipelineRun where
  executed : List String
  outcome : Option (Int × String)
  final : PipeState

/-- Modelled from the spec: the Express dispatch loop — each middleware
either passes control to the following stage or terminates the request
with a response, in which case no later stage (and no handler)
executes. -/
def runStages : List (String × (PipeState → StageResult)) → PipeState → PipelineRun
  | [], st => ⟨[], none, st⟩
  | (name, stage) :: rest, st =>
      match stage st with
      | .next st' =>
          let r := runStages rest st'
          ⟨name :: r.executed, r.outcome, r.final⟩
      | .terminated status err => ⟨[name], some (status, err), st⟩

/-- Running a request through the configured middleware chain. -/
def runPipeline (r : PipeRequest) : PipelineRun :=
  runStages middlewareStages (initState r)

/-- The fixed total order of the configured stages. -/
def stageOrder : List String := middlewareStages.map Prod.fst

/-! ## Claim-side predicates

These predicates state what the spec calls the validation shape; they are
formalisations of the claims, compared against the source-embedded
definitions above. -/

/-- One entry of the validation shape: an object with a string field
property and a string message property. -/
def isFieldMessageEntry : JsVal → Bool
  | .obj fields =>
      (match fields.lookup "field" with
       | some (.str _) => true
       | _ => false) &&
      (match fields.lookup "message" with
       | some (.str _) => true
       | _ => false)
  | _ => false

/-- A sequence of field and message entries. -/
def isFieldMessageArray : JsVal → Bool
  | .arr entries => entries.all isFieldMessageEntry
  | _ => false

/-- The spec discriminator of a validation error: the error value is a
plain object carrying a status field and a sequence of field and message
entries. -/
def isValidationShaped : ErrValue → Bool
  | .jsVal (.obj fields) =>
      (fields.lookup "status").isSome &&
      (match fields.lookup "error" with
       | some (.arr entries) => entries.all isFieldMessageEntry
       | _ => false)
  | _ => false

/-- The value classes the claim about the unknown-error branch quantifies
over: a thrown string, number, boolean, null or undefined — values that
are neither objects (other than null) nor Error instances. -/
def isPrimitiveNonError : ErrValue → Bool
  | .jsVal (.str _) => true
  | .jsVal (.num _) => true
  | .jsVal (.bool _) => true
  | .jsVal .null => true
  | .jsVal .undefined => true
  | _ => false

/-! ## Claims -/

/-- Claim C1, counterexample: the plain object with only a status field is
an object that does not have the validation shape, yet handleError
classifies it as a validation error, because the branch condition tests
only for the presence of a status property. -/
theorem claim_C1_cex :
    typeofIsObject (ErrValue.jsVal (JsVal.obj [("status", JsVal.num 500)])) = true ∧
    isNullVal (ErrValue.jsVal (JsVal.obj [("status", JsVal.num 500)])) = false ∧
    isValidationShaped (ErrValue.jsVal (JsVal.obj [("status", JsVal.num 500)])) = false ∧
    classifyError (ErrValue.jsVal (JsVal.obj [("status", JsVal.num 500)])) =
      ErrClass.validation :=
  ⟨rfl, rfl, rfl, rfl⟩

/-- Claim C1 (amended): handleError classifies a non-null object that is
not a Prisma known request error as a validation error exactly when the
object carries a status property — the field and message array shape
plays no part in the classification. -/
theorem claim_C1 (e : ErrValue) :
    classifyError e = ErrClass.validation ↔
      (typeofIsObject e = true ∧ isNullVal e = false ∧
       hasStatusProp e = true ∧ isPrismaKnown e = false) := by
  cases e with
  | prismaKnown p =>
      simp [classifyError, isPrismaKnown, typeofIsObject, isNullVal, hasStatusProp,
        instanceofError]
  | nativeError m props =>
      cases h : (props.lookup "status").isSome <;>
        simp [classifyError, isPrismaKnown, typeofIsObject, isNullVal, hasStatusProp,
          instanceofError, h]
  | jsVal v =>
      cases v with
      | obj fields =>
          cases h : (fields.lookup "status").isSome <;>
            simp [classifyError, isPrismaKnown, typeofIsObject, isNullVal, hasStatusProp,
              instanceofError, h]
      | _ =>
          simp [classifyError, isPrismaKnown, typeofIsObject, isNullVal, hasStatusProp,
            instanceofError]

/-- Claim C2: the value thrown by throwError(s, m) is the plain object
with status s and error the single object with message m; handleError
classifies it by the validation branch, and the response written carries
status s and, as its error field, that single message object — not a
string and not an array of field and message entries. -/
theorem claim_C2 (s : Int) (m : String) (req : Req) (em : Option String) :
    throwErrorValue s m =
      ErrValue.jsVal (JsVal.obj
        [("status", JsVal.num s), ("error", JsVal.obj [("message", JsVal.str m)])]) ∧
    classifyError (throwErrorValue s m) = ErrClass.validation ∧
    responseOf (handleError (throwErrorValue s m) req em) =
      some (JsVal.num s, JsVal.obj [("message", JsVal.str m)]) :=
  ⟨rfl, rfl, rfl⟩

/-- Claim C3, counterexample: the object with status 400 and the string
error field oops is classified by the validation branch, and the response
passes that string through — so the error field of a validation-classified
response is not always a sequence of field and message entries. -/
theorem claim_C3_cex :
    classifyError
      (ErrValue.jsVal (JsVal.obj [("status", JsVal.num 400), ("error", JsVal.str "oops")])) =
      ErrClass.validation ∧
    responseOf
      (handleError
        (ErrValue.jsVal (JsVal.obj [("status", JsVal.num 400), ("error", JsVal.str "oops")]))
        ⟨"GET", "/x"⟩ none) =
      some (JsVal.num 400, JsVal.str "oops") ∧
    isFieldMessageArray (JsVal.str "oops") = false :=
  ⟨rfl, rfl, rfl⟩

/-- Claim C3 (amended): the error field of the response is a single string
whenever the error is classified as a storage, runtime or unknown error;
when the error is classified as a validation error, the error field is the
error property of the input passed through verbatim — a sequence of field
and message entries whenever the input has the validation shape, but
otherwise whatever value that property holds. -/
theorem claim_C3 (e : ErrValue) (req : Req) (em : Option String) :
    (classifyError e ≠ ErrClass.validation →
      ∃ n msg, responseOf (handleError e req em) = some (JsVal.num n, JsVal.str msg)) ∧
    (classifyError e = ErrClass.validation →
      responseOf (handleError e req em) = some (getProp e "status", getProp e "error")) := by
  cases e with
  | prismaKnown p =>
      exact ⟨fun _ => ⟨(getPrismaErrorMessage p).1, (getPrismaErrorMessage p).2, rfl⟩,
        fun h => by simp [classifyError, isPrismaKnown] at h⟩
  | nativeError m props =>
      cases h : (props.lookup "status").isSome with
      | true =>
          refine ⟨fun hc => absurd ?_ hc, fun _ => ?_⟩
          · simp [classifyError, isPrismaKnown, typeofIsObject, isNullVal, hasStatusProp, h]
          · simp [handleError, typeofIsObject, isNullVal, hasStatusProp, h,
              formatValidationErrors, responseOf, responsesOf, logError, sendErrorResponse]
      | false =>
          refine ⟨fun _ => ⟨500, m, ?_⟩, fun hc => ?_⟩
          · simp [handleError, typeofIsObject, isNullVal, hasStatusProp, h, instanceofError,
              getProp, responseOf, responsesOf, logError, sendErrorResponse]
          · rw [classifyError] at hc
            simp [isPrismaKnown, typeofIsObject, isNullVal, hasStatusProp, h,
              instanceofError] at hc
  | jsVal v =>
      cases v with
      | obj fields =>
          cases h : (fields.lookup "status").isSome with
          | true =>
              refine ⟨fun hc => absurd ?_ hc, fun _ => ?_⟩
              · simp [classifyError, isPrismaKnown, typeofIsObject, isNullVal, hasStatusProp, h]
              · simp [handleError, typeofIsObject, isNullVal, hasStatusProp, h,
                  formatValidationErrors, responseOf, responsesOf, logError, sendErrorResponse]
          | false =>
              refine ⟨fun _ => ⟨500, "Erreur serveur inconnue", ?_⟩, fun hc => ?_⟩
              · simp [handleError, typeofIsObject, isNullVal, hasStatusProp, h, instanceofError,
                  responseOf, responsesOf, logError, sendErrorResponse]
              · rw [classifyError] at hc
                simp [isPrismaKnown, typeofIsObject, isNullVal, hasStatusProp, h,
                  instanceofError] at hc
      | _ =>
          exact ⟨fun _ => ⟨500, "Erreur serveur inconnue", rfl⟩,
            fun hc => by
              rw [classifyError] at hc
              simp [isPrismaKnown, typeofIsObject, isNullVal, hasStatusProp,
                instanceofError] at hc⟩

/-- Claim C3, witness: a thrown plain string is not validation-classified
and its response error field is a single string. -/
theorem claim_C3_witness :
    ∃ n msg,
      responseOf (handleError (ErrValue.jsVal (JsVal.str "x")) ⟨"GET", "/x"⟩ none) =
        some (JsVal.num n, JsVal.str msg) :=
  (claim_C3 (ErrValue.jsVal (JsVal.str "x")) ⟨"GET", "/x"⟩ none).1 (by decide)

/-- Claim C4: the Prisma error translator returns status 400 for a unique
constraint violation P2002, naming the offending field from the metadata
and falling back to the text inconnu when the target is absent; status 400
for a foreign-key violation P2003; status 404 for required record not
found P2025; and status 500 with the generic unknown-storage-error message
for every other code. -/
theorem claim_C4 (m t : String) (ht : t ≠ "") :
    getPrismaErrorMessage ⟨"P2002", some (.str t), m⟩ =
      (400, "Erreur : le champ " ++ t ++
        " doit être unique. La valeur fournie est déjà utilisée.") ∧
    getPrismaErrorMessage ⟨"P2002", none, m⟩ =
      (400, "Erreur : le champ inconnu doit être unique. La valeur fournie est déjà utilisée.") ∧
    getPrismaErrorMessage ⟨"P2003", some (.str t), m⟩ =
      (400, "Erreur : violation de contrainte de clé étrangère. Veuillez vérifier les références.") ∧
    getPrismaErrorMessage ⟨"P2025", some (.str t), m⟩ =
      (404, "Erreur : Une opération a échoué car elle dépend d\x27un ou plusieurs enregistrements requis mais introuvables.") ∧
    (∀ c, c ≠ "P2002" → c ≠ "P2003" → c ≠ "P2025" →
      getPrismaErrorMessage ⟨c, some (.str t), m⟩ =
        (500, "Erreur serveur : une erreur Prisma inconnue s\x27est produite.")) := by
  refine ⟨?_, rfl, rfl, rfl, ?_⟩
  · have hne : t.isEmpty = false := by
      cases hemp : t.isEmpty
      · rfl
      · exact absurd ((String.isEmpty_iff t).mp hemp) ht
    simp [getPrismaErrorMessage, jsTruthy, hne, jsToString]
  · intro c h1 h2 h3
    unfold getPrismaErrorMessage
    split <;> simp_all

/-- Claim C4, witness: the unique-constraint case with target email, and
an unrecognized storage code. -/
theorem claim_C4_witness :
    getPrismaErrorMessage ⟨"P2002", some (.str "email"), "m"⟩ =
      (400, "Erreur : le champ " ++ "email" ++
        " doit être unique. La valeur fournie est déjà utilisée.") ∧
    getPrismaErrorMessage ⟨"P2014", some (.str "email"), "m"⟩ =
      (500, "Erreur serveur : une erreur Prisma inconnue s\x27est produite.") :=
  ⟨(claim_C4 "m" "email" (by decide)).1,
   (claim_C4 "m" "email" (by decide)).2.2.2.2 "P2014" (by decide) (by decide) (by decide)⟩

/-- Claim C5, counterexample: a native Error with message boom and an
added status property 418 is a runtime error that is not a Prisma known
error, yet handleError routes it through the validation branch, responding
with status 418 and an undefined error field rather than with status 500
and the message boom. -/
theorem claim_C5_cex :
    instanceofError (ErrValue.nativeError "boom" [("status", JsVal.num 418)]) = true ∧
    isPrismaKnown (ErrValue.nativeError "boom" [("status", JsVal.num 418)]) = false ∧
    classifyError (ErrValue.nativeError "boom" [("status", JsVal.num 418)]) =
      ErrClass.validation ∧
    responseOf
      (handleError (ErrValue.nativeError "boom" [("status", JsVal.num 418)])
        ⟨"GET", "/x"⟩ none) =
      some (JsVal.num 418, JsVal.undefined) ∧
    responseOf
      (handleError (ErrValue.nativeError "boom" [("status", JsVal.num 418)])
        ⟨"GET", "/x"⟩ none) ≠
      some (JsVal.num 500, JsVal.str "boom") := by
  refine ⟨rfl, rfl, rfl, rfl, fun h => ?_⟩
  rw [show
    responseOf
      (handleError (ErrValue.nativeError "boom" [("status", JsVal.num 418)])
        ⟨"GET", "/x"⟩ none) =
      some (JsVal.num 418, JsVal.undefined) from rfl] at h
  injection h with h1
  injection h1 with h2 h3
  exact JsVal.noConfusion h3

/-- Claim C5 (amended): every native Error instance that is not a Prisma
known request error and carries no status property is classified as a
runtime error, and handleError responds with status 500 and the message
text of that error. -/
theorem claim_C5 (m : String) (props : List (String × JsVal)) (req : Req)
    (em : Option String) (h : (props.lookup "status").isSome = false) :
    classifyError (ErrValue.nativeError m props) = ErrClass.serverE ∧
    responseOf (handleError (ErrValue.nativeError m props) req em) =
      some (JsVal.num 500, JsVal.str m) := by
  constructor
  · simp [classifyError, isPrismaKnown, typeofIsObject, isNullVal, hasStatusProp, h,
      instanceofError]
  · simp [handleError, typeofIsObject, isNullVal, hasStatusProp, h, instanceofError,
      getProp, responseOf, responsesOf, logError, sendErrorResponse]

/-- Claim C5, witness: a plain native Error with message boom yields a 500
response carrying that message. -/
theorem claim_C5_witness :
    classifyError (ErrValue.nativeError "boom" []) = ErrClass.serverE ∧
    responseOf (handleError (ErrValue.nativeError "boom" []) ⟨"GET", "/x"⟩ none) =
      some (JsVal.num 500, JsVal.str "boom") :=
  claim_C5 "boom" [] ⟨"GET", "/x"⟩ none rfl

/-- Claim C6: every input of unrecognized shape — a thrown string, number,
boolean, null or undefined — takes the unknown-error branch: handleError
logs and responds with status 500 and the fixed generic message, the full
trace is the same constant for any two such values, and in particular the
raw input is never echoed. -/
theorem claim_C6 (req : Req) (em : Option String) :
    (∀ e, isPrimitiveNonError e = true →
      handleError e req em =
        [Event.logE "Erreur inconnue" req.method req.originalUrl
          "Erreur serveur inconnue" em,
         Event.respond (JsVal.num 500) (JsVal.str "Erreur serveur inconnue")]) ∧
    (∀ a b, isPrimitiveNonError a = true → isPrimitiveNonError b = true →
      handleError a req em = handleError b req em) := by
  have main : ∀ e, isPrimitiveNonError e = true →
      handleError e req em =
        [Event.logE "Erreur inconnue" req.method req.originalUrl
          "Erreur serveur inconnue" em,
         Event.respond (JsVal.num 500) (JsVal.str "Erreur serveur inconnue")] := by
    intro e he
    cases e with
    | prismaKnown p => simp [isPrimitiveNonError] at he
    | nativeError m props => simp [isPrimitiveNonError] at he
    | jsVal v =>
        cases v <;>
          simp_all [isPrimitiveNonError, handleError, typeofIsObject, isNullVal,
            hasStatusProp, instanceofError, logError, sendErrorResponse]
  exact ⟨main, fun a b ha hb => (main a ha).trans (main b hb).symm⟩

/-- Claim C6, witness: the thrown string boom produces the fixed generic
500 response, not boom itself. -/
theorem claim_C6_witness :
    handleError (ErrValue.jsVal (JsVal.str "boom")) ⟨"GET", "/x"⟩ none =
      [Event.logE "Erreur inconnue" "GET" "/x" "Erreur serveur inconnue" none,
       Event.respond (JsVal.num 500) (JsVal.str "Erreur serveur inconnue")] :=
  (claim_C6 ⟨"GET", "/x"⟩ none).1 (ErrValue.jsVal (JsVal.str "boom")) rfl

/-- Claim C7: for every validation-shaped input — an object with a numeric
status property and an error property holding a sequence of field and
message entries — the response carries exactly the input status and the
input entry list, passed through unchanged (same entries, same order). -/
theorem claim_C7 (fields : List (String × JsVal)) (s : Int) (entries : List JsVal)
    (req : Req) (em : Option String)
    (hs : fields.lookup "status" = some (JsVal.num s))
    (he : fields.lookup "error" = some (JsVal.arr entries))
    (_hshape : entries.all isFieldMessageEntry = true) :
    classifyError (ErrValue.jsVal (JsVal.obj fields)) = ErrClass.validation ∧
    responseOf (handleError (ErrValue.jsVal (JsVal.obj fields)) req em) =
      some (JsVal.num s, JsVal.arr entries) := by
  constructor
  · simp [classifyError, isPrismaKnown, typeofIsObject, isNullVal, hasStatusProp, hs]
  · simp [handleError, typeofIsObject, isNullVal, hasStatusProp, hs, he,
      formatValidationErrors, getProp, responseOf, responsesOf, logError, sendErrorResponse]

/-- Claim C7, witness: a one-entry validation error on the field email is
passed through verbatim. -/
theorem claim_C7_witness :
    classifyError
      (ErrValue.jsVal (JsVal.obj
        [("status", JsVal.num 400),
         ("error", JsVal.arr
           [JsVal.obj [("field", JsVal.str "email"), ("message", JsVal.str "requis")]])])) =
      ErrClass.validation ∧
    responseOf
      (handleError
        (ErrValue.jsVal (JsVal.obj
          [("status", JsVal.num 400),
           ("error", JsVal.arr
             [JsVal.obj [("field", JsVal.str "email"), ("message", JsVal.str "requis")]])]))
        ⟨"POST", "/users"⟩ none) =
      some (JsVal.num 400,
        JsVal.arr
          [JsVal.obj [("field", JsVal.str "email"), ("message", JsVal.str "requis")]]) :=
  claim_C7
    [("status", JsVal.num 400),
     ("error", JsVal.arr
       [JsVal.obj [("field", JsVal.str "email"), ("message", JsVal.str "requis")]])]
    400
    [JsVal.obj [("field", JsVal.str "email"), ("message", JsVal.str "requis")]]
    ⟨"POST", "/users"⟩ none rfl rfl rfl

/-- Claim C8: on every invocation, handleError executes exactly the branch
selected by the classification, and its whole observable trace is exactly
one structured log write (carrying the method, the path, the label of that
branch and the optional diagnostic) followed by exactly one response
write; it never writes a second response and never re-throws (it is a
total function into a trace). -/
theorem claim_C8 (e : ErrValue) (req : Req) (em : Option String) :
    ∃ msg s er,
      handleError e req em =
        [Event.logE (classLabel (classifyError e)) req.method req.originalUrl msg em,
         Event.respond s er] := by
  cases e with
  | prismaKnown p =>
      exact ⟨(getPrismaErrorMessage p).2, JsVal.num (getPrismaErrorMessage p).1,
        JsVal.str (getPrismaErrorMessage p).2, rfl⟩
  | nativeError m props =>
      cases h : (props.lookup "status").isSome with
      | true =>
          refine ⟨jsonStringify (getProp (ErrValue.nativeError m props) "error"),
            getProp (ErrValue.nativeError m props) "status",
            getProp (ErrValue.nativeError m props) "error", ?_⟩
          simp [handleError, classifyError, isPrismaKnown, typeofIsObject, isNullVal,
            hasStatusProp, h, classLabel, formatValidationErrors, logError, sendErrorResponse]
      | false =>
          refine ⟨jsToString (getProp (ErrValue.nativeError m props) "message"),
            JsVal.num 500, getProp (ErrValue.nativeError m props) "message", ?_⟩
          simp [handleError, classifyError, isPrismaKnown, typeofIsObject, isNullVal,
            hasStatusProp, h, instanceofError, classLabel, logError, sendErrorResponse]
  | jsVal v =>
      cases v with
      | obj fields =>
          cases h : (fields.lookup "status").isSome with
          | true =>
              refine ⟨jsonStringify (getProp (ErrValue.jsVal (JsVal.obj fields)) "error"),
                getProp (ErrValue.jsVal (JsVal.obj fields)) "status",
                getProp (ErrValue.jsVal (JsVal.obj fields)) "error", ?_⟩
              simp [handleError, classifyError, isPrismaKnown, typeofIsObject, isNullVal,
                hasStatusProp, h, classLabel, formatValidationErrors, logError,
                sendErrorResponse]
          | false =>
              refine ⟨"Erreur serveur inconnue", JsVal.num 500,
                JsVal.str "Erreur serveur inconnue", ?_⟩
              simp [handleError, classifyError, isPrismaKnown, typeofIsObject, isNullVal,
                hasStatusProp, h, instanceofError, classLabel, logError, sendErrorResponse]
      | _ =>
          exact ⟨"Erreur serveur inconnue", JsVal.num 500,
            JsVal.str "Erreur serveur inconnue", rfl⟩

/-- Running a stage list executes a prefix of its stages, in order; all of
them exactly when no stage terminated the request. -/
theorem runStages_executed_prefix
    (stages : List (String × (PipeState → StageResult))) (st : PipeState) :
    ∃ k, (runStages stages st).executed = (stages.map Prod.fst).take k ∧
      ((runStages stages st).outcome = none → k = stages.length) := by
  induction stages generalizing st with
  | nil => exact ⟨0, rfl, fun _ => rfl⟩
  | cons p rest ih =>
      obtain ⟨name, stage⟩ := p
      cases h : stage st with
      | next st' =>
          obtain ⟨k, hk, ho⟩ := ih st'
          refine ⟨k + 1, ?_, ?_⟩
          · simp [runStages, h, hk]
          · intro hout
            have hn : (runStages rest st').outcome = none := by
              simpa [runStages, h] using hout
            simp [ho hn]
      | terminated s er =>
          refine ⟨1, ?_, ?_⟩
          · simp [runStages, h]
          · intro hout
            simp [runStages, h] at hout

/-- Claim C9: every request is threaded through the configured stages in
the fixed registration order — body parsing, cors, helmet, compression
decision, trusted-proxy resolution, rate limiting, sanitization, logging —
executing a prefix of that order and the whole of it exactly when no stage
terminates the request; and when the body parses but the client identity
has consumed the 100-request cap, the rate limiter terminates the request
with status 429 after the first six stages, so that neither sanitization
nor logging (nor the handler) executes. -/
theorem claim_C9 (r : PipeRequest) :
    (∃ k, (runPipeline r).executed = stageOrder.take k ∧
      ((runPipeline r).outcome = none → k = stageOrder.length)) ∧
    (r.rawBody.isSome = true → 100 ≤ r.priorCount →
      (runPipeline r).outcome = some (429, rateLimitMessage) ∧
      (runPipeline r).executed =
        ["express.json", "cors", "helmet", "compression", "trust proxy", "rateLimiter"] ∧
      (runPipeline r).final.sanitized = false ∧
      (runPipeline r).final.logged = false) := by
  constructor
  · exact runStages_executed_prefix middlewareStages (initState r)
  · intro hb hc
    obtain ⟨b, hbv⟩ := Option.isSome_iff_exists.mp hb
    have hlt : ¬ (r.priorCount < 100) := by omega
    refine ⟨?_, ?_, ?_, ?_⟩ <;>
      simp [runPipeline, runStages, middlewareStages, initState, expressJsonStage, hbv,
        corsStage, helmetStage, compressionStage, trustProxyStage, createRateLimiter, hlt]

/-- Claim C9, witness: a well-formed request whose identity has already
consumed the cap is denied by the rate limiter after the first six stages,
and sanitization and logging do not run. -/
theorem claim_C9_witness :
    (runPipeline ⟨some JsVal.null, [], "/x", "1.2.3.4", none, 100⟩).outcome =
      some (429, rateLimitMessage) ∧
    (runPipeline ⟨some JsVal.null, [], "/x", "1.2.3.4", none, 100⟩).executed =
      ["express.json", "cors", "helmet", "compression", "trust proxy", "rateLimiter"] ∧
    (runPipeline ⟨some JsVal.null, [], "/x", "1.2.3.4", none, 100⟩).final.sanitized = false ∧
    (runPipeline ⟨some JsVal.null, [], "/x", "1.2.3.4", none, 100⟩).final.logged = false :=
  (claim_C9 ⟨some JsVal.null, [], "/x", "1.2.3.4", none, 100⟩).2 rfl (Nat.le_refl 100)

/-- Claim C10, counterexample: a request that carries the x-no-compression
header with an empty value and asks for a non-media path is compressed by
the filter (the filter tests the header for truthiness, not presence), so
skip-compression does not hold for every request carrying the override
header. -/
theorem claim_C10_cex :
    (([("x-no-compression", "")] : List (String × String)).lookup
      "x-no-compression").isSome = true ∧
    pathMatchesCompressedExt "/data" = false ∧
    compressionFilter ⟨none, [("x-no-compression", "")], "/data", "1.2.3.4", none, 0⟩ =
      true :=
  ⟨rfl, rfl, rfl⟩

/-- Claim C10 (amended): the compression filter decides to skip
compression exactly when the request carries the x-no-compression header
with a non-empty value or the request path ends, case-insensitively, with
one of the extensions jpg, jpeg, png, gif, pdf, svg, mp4; and the
compression stage only records this decision for response encoding — it
never terminates the request and leaves the request data untouched. -/
theorem claim_C10 (r : PipeRequest) :
    (compressionFilter r = false ↔
      (headerTruthy (r.headers.lookup "x-no-compression") = true ∨
        ∃ e ∈ ["jpg", "jpeg", "png", "gif", "pdf", "svg", "mp4"],
          strEndsWith (strToLower r.path) ("." ++ e) = true)) ∧
    (∀ st : PipeState, compressionStage st =
      StageResult.next { st with compressionEnabled := compressionFilter st.req }) := by
  constructor
  · unfold compressionFilter pathMatchesCompressedExt compressedExtensions
    cases h : headerTruthy (r.headers.lookup "x-no-compression")
    · simp only [h, Bool.false_eq_true, if_false, Bool.not_eq_false', List.any_eq_true,
        false_or]
    · simp [h]
  · intro st
    rfl

end Spec2Proof
